import Mathlib

/-!
# goose: resolution of the database configuration (lib/goose/dbconf.go)

A shallow embedding of `NewDBConf`, `newDBDriver` and `DBDriver.IsValid`.

Go values are embedded as follows.

* An interface value or pointer that may be `nil` is an `Option`; `none` is `nil`.
* `NewDBConf` returns the Go pair `(*DBConf, error)`; the embedding returns the
  pair `Option DBConf × Option GoError`, so a `nil` pointer returned together
  with a `nil` error is representable.
* The libraries the function calls (`filepath.Join`, `toml.LoadFile`,
  `os.ExpandEnv`, `pq.ParseURL`, the `%v` verb of `fmt.Sprintf`) and the
  function `dialectByName`, which is declared in another file of the package,
  are the fields of `Collaborators`; every theorem holds for all of them.
-/

namespace Goose

/-- Modelled from the spec: the interface `SqlDialect` and the structs `PostgresDialect` and
`MySqlDialect` are declared in another file of the package; the spec (section 3) describes
the dialect as a variant tag, `Postgres`, `MySQL` or absent. A value of this type is the
dynamic value of a non-nil `SqlDialect`: a pointer to one of the two structs that
`newDBDriver` builds, or to any other implementation of the interface (identified by its
type name), which `dialectByName` is free to return. The `nil` interface is
`none : Option SqlDialect`. -/
inductive SqlDialect where
  | PostgresDialect
  | MySqlDialect
  | other (typeName : String)
  deriving DecidableEq, Repr

/-- The struct `DBDriver` (dbconf.go, lines 15-20). -/
structure DBDriver where
  Name : String
  OpenStr : String
  Import : String
  Dialect : Option SqlDialect
  deriving DecidableEq, Repr

/-- The struct `DBConf` (dbconf.go, lines 22-26). -/
structure DBConf where
  MigrationsDir : String
  Env : String
  Driver : DBDriver
  deriving DecidableEq, Repr

/-- A non-nil Go `error`: either a value handed over by a library (`toml.LoadFile`,
`pq.ParseURL`), identified by its text, or the value built by `errors.New`. -/
inductive GoError where
  | foreign (text : String)
  | errorsNew (text : String)
  deriving DecidableEq, Repr

/-- The `interface{}` returned by `(*TomlTree).Get`: `nil` when the key is absent,
otherwise a string, an integer, a boolean or a nested table. -/
inductive GoValue where
  | nil
  | string (s : String)
  | int64 (i : Int)
  | bool (b : Bool)
  | table (keys : List String)
  deriving DecidableEq, Repr

/-- The comma-ok type assertion `v.(string)`: the string and `true` when the dynamic
type is `string`, the zero value `""` and `false` otherwise. -/
def GoValue.assertString : GoValue → String × Bool
  | .string s => (s, true)
  | _ => ("", false)

/-- A loaded configuration document, seen through its only method used here, `Get`. -/
structure TomlTree where
  Get : String → GoValue

/-- What `NewDBConf` calls outside dbconf.go.

* `Join` is `filepath.Join` applied to the list of its arguments.
* `LoadFile` is `toml.LoadFile`; its result is the Go pair `(tree, err)`, and the tree is
  read only when `err` is `nil`.
* `ExpandEnv` is `os.ExpandEnv`.
* `ParseURL` is `pq.ParseURL`; its result is the Go pair `(string, error)`.
* `dialectByName` is the function of that name of the package, declared outside dbconf.go.
* `fmtV` renders a `DBDriver` with the verb `%v` of package `fmt`. -/
structure Collaborators where
  Join : List String → String
  LoadFile : String → TomlTree × Option GoError
  ExpandEnv : String → String
  ParseURL : String → String × Option GoError
  dialectByName : String → Option SqlDialect
  fmtV : DBDriver → String

/-- Go's builtin `len` on a string: the number of bytes of its UTF-8 encoding. -/
def len (s : String) : Nat := s.utf8ByteSize

/-- The function `newDBDriver` (dbconf.go, lines 84-106). The `switch` on `name` has no
default case: an unlisted name leaves `Import` and `Dialect` at their zero values. -/
def newDBDriver (name openStr : String) : DBDriver :=
  let d : DBDriver := { Name := name, OpenStr := openStr, Import := "", Dialect := none }
  if name = "postgres" then
    { d with Import := "github.com/lib/pq", Dialect := some SqlDialect.PostgresDialect }
  else if name = "mymysql" then
    { d with Import := "github.com/ziutek/mymysql/godrv", Dialect := some SqlDialect.MySqlDialect }
  else if name = "mysql" then
    { d with Import := "github.com/go-sql-driver/mysql", Dialect := some SqlDialect.MySqlDialect }
  else
    d

/-- The method `(*DBDriver).IsValid` (dbconf.go, lines 109-111):
`len(drv.Import) > 0 && drv.Dialect != nil`. -/
def DBDriver.IsValid (drv : DBDriver) : Bool :=
  decide (len drv.Import > 0) && drv.Dialect.isSome

/-- Lines 49-56 of `NewDBConf`: for the driver `postgres` the connection string is replaced
by the result of `pq.ParseURL` when that call returns a `nil` error and a non-empty
string; in every other case it is kept. -/
def parsePostgres (C : Collaborators) (drv openStr : String) : String :=
  if drv = "postgres" then
    match C.ParseURL openStr with
    | (parsedURL, none) => if parsedURL ≠ "" then parsedURL else openStr
    | (_, some _) => openStr
  else
    openStr

/-- Lines 60-63 of `NewDBConf`: `migrate.import`, when it is a string, replaces `Import`. -/
def overrideImport (config : TomlTree) (d : DBDriver) : DBDriver :=
  match (config.Get "migrate.import").assertString with
  | (imprt, true) => { d with Import := imprt }
  | (_, false) => d

/-- Lines 65-68 of `NewDBConf`: `migrate.dialect`, when it is a string, replaces `Dialect`
by `dialectByName` of it. -/
def overrideDialect (C : Collaborators) (config : TomlTree) (d : DBDriver) : DBDriver :=
  match (config.Get "migrate.dialect").assertString with
  | (dialect, true) => { d with Dialect := C.dialectByName dialect }
  | (_, false) => d

/-- The function `NewDBConf` (dbconf.go, lines 29-79). The three early returns
`return nil, err` (lines 35, 40 and 45) all return the variable `err` assigned by
`toml.LoadFile` at line 33. -/
def NewDBConf (C : Collaborators) (p env : String) : Option DBConf × Option GoError :=
  let cfgFile := C.Join [p, "config", env ++ ".toml"]
  let (config, err) := C.LoadFile cfgFile
  if err ≠ none then
    (none, err)
  else
    match (config.Get "db.driver").assertString with
    | (_, false) => (none, err)
    | (drv, true) =>
      match (config.Get "db.dsn").assertString with
      | (_, false) => (none, err)
      | (dsn, true) =>
        let openStr := C.ExpandEnv dsn
        let openStr := parsePostgres C drv openStr
        let d := newDBDriver drv openStr
        let d := overrideImport config d
        let d := overrideDialect C config d
        if !d.IsValid then
          (none, some (GoError.errorsNew ("Invalid DBConf: " ++ C.fmtV d)))
        else
          (some { MigrationsDir := C.Join [p, "migrations"], Env := env, Driver := d }, none)

/-- The driver that `NewDBConf` hands to `IsValid` at line 70, as a function of the loaded
document and of the two strings read from it: lines 47-68 of `NewDBConf`. -/
def assembleDriver (C : Collaborators) (config : TomlTree) (drv dsn : String) : DBDriver :=
  overrideDialect C config (overrideImport config
    (newDBDriver drv (parsePostgres C drv (C.ExpandEnv dsn))))

/-- Lines 70-78 of `NewDBConf`: the validation gate and the two returns that follow it. -/
def validate (C : Collaborators) (p env : String) (d : DBDriver) :
    Option DBConf × Option GoError :=
  if !d.IsValid then
    (none, some (GoError.errorsNew ("Invalid DBConf: " ++ C.fmtV d)))
  else
    (some { MigrationsDir := C.Join [p, "migrations"], Env := env, Driver := d }, none)

/-! ## Concrete collaborators and documents, for evaluating the model -/

/-- A document given by the list of its keys and values; `Get` returns `nil` for a key that
is not listed. -/
def docOf (kvs : List (String × GoValue)) : TomlTree :=
  { Get := fun key => (kvs.lookup key).getD GoValue.nil }

/-- A `dialectByName` for the sample collaborators: the names `postgres` and `mysql` select
their dialects, every other name selects none. -/
def sampleDialectByName (d : String) : Option SqlDialect :=
  if d = "postgres" then some SqlDialect.PostgresDialect
  else if d = "mysql" then some SqlDialect.MySqlDialect
  else none

/-- A `%v` rendering for the sample collaborators: the fields separated by blanks, between
braces; a `nil` dialect is `<nil>` and a dialect pointer is shown as a fixed address. -/
def sampleFmtV (d : DBDriver) : String :=
  "\x7b" ++ d.Name ++ " " ++ d.OpenStr ++ " " ++ d.Import ++ " " ++
    (match d.Dialect with
     | none => "<nil>"
     | some _ => "0xc000010000") ++ "\x7d"

/-- Sample collaborators around one document `doc`, stored at `proj/config/dev.toml`: every
other path fails to load, the environment has no variable that the sample strings refer to,
and `pq.ParseURL` knows one URL. -/
def sampleWorld (doc : TomlTree) : Collaborators where
  Join := String.intercalate "/"
  LoadFile := fun path =>
    if path = "proj/config/dev.toml" then (doc, none)
    else (docOf [], some (GoError.foreign ("open " ++ path ++ ": no such file or directory")))
  ExpandEnv := fun s => s
  ParseURL := fun s =>
    if s = "postgres://u@h/db" then ("dbname=db host=h user=u", none)
    else ("", some (GoError.foreign "invalid connection protocol"))
  dialectByName := sampleDialectByName
  fmtV := sampleFmtV

/-- A document with `db.driver` and no `db.dsn`. -/
def docNoDsn : TomlTree := docOf [("db.driver", GoValue.string "postgres")]

/-- A document for the driver `postgres` whose `db.dsn` is the URL the sample normalizer knows. -/
def docPostgres : TomlTree :=
  docOf [("db.driver", GoValue.string "postgres"), ("db.dsn", GoValue.string "postgres://u@h/db")]

/-- A document for the unrecognized driver `oracle`, without override fields. -/
def docOracle : TomlTree :=
  docOf [("db.driver", GoValue.string "oracle"), ("db.dsn", GoValue.string "scott/tiger@db")]

/-- A document for the driver `postgres` whose `migrate.dialect` is `mysql`. -/
def docDialectOverride : TomlTree :=
  docOf [("db.driver", GoValue.string "postgres"), ("db.dsn", GoValue.string "postgres://u@h/db"),
         ("migrate.dialect", GoValue.string "mysql")]

/-- A document for the driver `mysql` whose `migrate.import` names another package. -/
def docImportOverride : TomlTree :=
  docOf [("db.driver", GoValue.string "mysql"), ("db.dsn", GoValue.string "u@tcp(h)/db"),
         ("migrate.import", GoValue.string "example.com/fork/mysql")]

/-- A document for the driver `postgres` whose `db.dsn` the sample normalizer rejects. -/
def docPostgresPlain : TomlTree :=
  docOf [("db.driver", GoValue.string "postgres"), ("db.dsn", GoValue.string "host=h user=u")]

/-- The sample collaborators in an environment where `HOME` is `/x`: `os.ExpandEnv` is
given on the one sample string that refers to a variable. -/
def sampleWorldHome (doc : TomlTree) : Collaborators :=
  { sampleWorld doc with
    ExpandEnv := fun s => if s = "u@unix($HOME/my.sock)/db" then "u@unix(/x/my.sock)/db" else s }

/-- A document for the driver `mysql` whose `db.dsn` refers to the variable `HOME`. -/
def docMysqlHome : TomlTree :=
  docOf [("db.driver", GoValue.string "mysql"),
         ("db.dsn", GoValue.string "u@unix($HOME/my.sock)/db")]

/-- The document `docPostgres` with one more key, which `NewDBConf` does not read. -/
def docPostgresExtra : TomlTree :=
  docOf [("db.driver", GoValue.string "postgres"), ("db.dsn", GoValue.string "postgres://u@h/db"),
         ("db.pool", GoValue.int64 5)]

/-- A document for the driver `mysql` whose two override keys hold values that are not
strings. -/
def docNonStringOverrides : TomlTree :=
  docOf [("db.driver", GoValue.string "mysql"), ("db.dsn", GoValue.string "u@tcp(h)/db"),
         ("migrate.import", GoValue.int64 5), ("migrate.dialect", GoValue.bool true)]

/-- A document for the unrecognized driver `oracle` with both override keys. -/
def docRescue : TomlTree :=
  docOf [("db.driver", GoValue.string "oracle"), ("db.dsn", GoValue.string "scott/tiger@db"),
         ("migrate.import", GoValue.string "example.com/oracle"),
         ("migrate.dialect", GoValue.string "postgres")]

/-- A document for the driver `postgres` whose `migrate.import` is the empty string. -/
def docEmptyImport : TomlTree :=
  docOf [("db.driver", GoValue.string "postgres"), ("db.dsn", GoValue.string "postgres://u@h/db"),
         ("migrate.import", GoValue.string "")]

/-- A document for the driver `mysql` whose `migrate.dialect` is a name that the sample
`dialectByName` does not know. -/
def docUnknownDialect : TomlTree :=
  docOf [("db.driver", GoValue.string "mysql"), ("db.dsn", GoValue.string "u@tcp(h)/db"),
         ("migrate.dialect", GoValue.string "sqlite3")]

/-- The document `config` without its two override keys: `Get` returns `nil` for
`migrate.import` and `migrate.dialect` and is unchanged elsewhere. -/
def withoutOverrides (config : TomlTree) : TomlTree :=
  { Get := fun key =>
      if key = "migrate.import" ∨ key = "migrate.dialect" then GoValue.nil else config.Get key }

/-- The sample collaborators in a run where the dialect pointer has another address: only
the `%v` rendering of a driver with a non-nil dialect differs from `sampleWorld`. -/
def sampleWorldOtherAddress (doc : TomlTree) : Collaborators :=
  { sampleWorld doc with
    fmtV := fun d =>
      "\x7b" ++ d.Name ++ " " ++ d.OpenStr ++ " " ++ d.Import ++ " " ++
        (match d.Dialect with
         | none => "<nil>"
         | some _ => "0xc000020000") ++ "\x7d" }

/-! ## Helper lemmas -/

theorem len_pos_iff (s : String) : 0 < len s ↔ s ≠ "" := by
  cases s with
  | mk cs =>
    cases cs with
    | nil => simp [len, String.utf8ByteSize, String.utf8ByteSize.go]
    | cons c cs =>
      have hc := c.utf8Size_pos
      simp [len, String.utf8ByteSize, String.utf8ByteSize.go]
      constructor
      · intro _ h
        have hd := congrArg String.data h
        simp at hd
      · intro _; omega

theorem IsValid_iff (d : DBDriver) : d.IsValid = true ↔ d.Import ≠ "" ∧ d.Dialect ≠ none := by
  unfold DBDriver.IsValid
  rw [Bool.and_eq_true, decide_eq_true_iff, gt_iff_lt, len_pos_iff, Option.isSome_iff_ne_none]

theorem assertString_string (s : String) : (GoValue.string s).assertString = (s, true) := rfl

theorem assertString_snd_false {v : GoValue} (h : ∀ s, v ≠ GoValue.string s) :
    v.assertString = ("", false) := by
  cases v <;> simp [GoValue.assertString]
  exact h _ rfl

/-- The outcome of `NewDBConf` once `toml.LoadFile` has returned a `nil` error and both
`db.driver` and `db.dsn` are strings: the assembled driver is validated, and is returned
when valid. -/
theorem NewDBConf_of_fields (C : Collaborators) (p env : String) (config : TomlTree)
    (drv dsn : String)
    (hload : C.LoadFile (C.Join [p, "config", env ++ ".toml"]) = (config, none))
    (hdrv : config.Get "db.driver" = GoValue.string drv)
    (hdsn : config.Get "db.dsn" = GoValue.string dsn) :
    NewDBConf C p env = validate C p env (assembleDriver C config drv dsn) := by
  unfold NewDBConf validate assembleDriver
  simp only [hload, hdrv, hdsn, assertString_string]
  simp

theorem validate_of_valid (C : Collaborators) (p env : String) (d : DBDriver)
    (h : d.IsValid = true) :
    validate C p env d =
      (some { MigrationsDir := C.Join [p, "migrations"], Env := env, Driver := d }, none) := by
  simp [validate, h]

theorem validate_of_invalid (C : Collaborators) (p env : String) (d : DBDriver)
    (h : d.IsValid = false) :
    validate C p env d =
      (none, some (GoError.errorsNew ("Invalid DBConf: " ++ C.fmtV d))) := by
  simp [validate, h]

theorem validate_eq_some (C : Collaborators) (p env : String) (d : DBDriver) (c : DBConf)
    (h : (validate C p env d).1 = some c) :
    d.IsValid = true ∧
      c = { MigrationsDir := C.Join [p, "migrations"], Env := env, Driver := d } := by
  cases hv : d.IsValid with
  | false => rw [validate_of_invalid C p env d hv] at h; cases h
  | true =>
    rw [validate_of_valid C p env d hv] at h
    simp only [Option.some.injEq] at h
    exact ⟨rfl, h.symm⟩

/-- When `toml.LoadFile` has returned a `nil` error and `db.driver` is not a string,
`NewDBConf` returns `nil, nil`. -/
theorem NewDBConf_driver_not_string (C : Collaborators) (p env : String) (config : TomlTree)
    (hload : C.LoadFile (C.Join [p, "config", env ++ ".toml"]) = (config, none))
    (hdrv : ∀ s, config.Get "db.driver" ≠ GoValue.string s) :
    NewDBConf C p env = (none, none) := by
  unfold NewDBConf
  simp only [hload, assertString_snd_false hdrv]
  simp

/-- When `toml.LoadFile` has returned a `nil` error and `db.dsn` is not a string,
`NewDBConf` returns `nil, nil`. -/
theorem NewDBConf_dsn_not_string (C : Collaborators) (p env : String) (config : TomlTree)
    (hload : C.LoadFile (C.Join [p, "config", env ++ ".toml"]) = (config, none))
    (hdsn : ∀ s, config.Get "db.dsn" ≠ GoValue.string s) :
    NewDBConf C p env = (none, none) := by
  unfold NewDBConf
  simp only [hload, assertString_snd_false hdsn]
  cases hd : (config.Get "db.driver").assertString with
  | mk s b => cases b <;> simp

/-- When `toml.LoadFile` returns a non-nil error, `NewDBConf` returns `nil` and that error. -/
theorem NewDBConf_load_error (C : Collaborators) (p env : String) (e : GoError)
    (hload : (C.LoadFile (C.Join [p, "config", env ++ ".toml"])).2 = some e) :
    NewDBConf C p env = (none, some e) := by
  rcases hl : C.LoadFile (C.Join [p, "config", env ++ ".toml"]) with ⟨config, err⟩
  rw [hl] at hload
  simp only at hload
  subst hload
  unfold NewDBConf
  simp only [hl]
  simp

/-- Every way `NewDBConf` returns: a load error, `nil, nil` for a missing field, or the
validation of the assembled driver. -/
theorem NewDBConf_cases (C : Collaborators) (p env : String) :
    (∃ e, NewDBConf C p env = (none, some e)) ∨ NewDBConf C p env = (none, none) ∨
    ∃ d : DBDriver, d.IsValid = true ∧ NewDBConf C p env =
      (some { MigrationsDir := C.Join [p, "migrations"], Env := env, Driver := d }, none) := by
  rcases hl : C.LoadFile (C.Join [p, "config", env ++ ".toml"]) with ⟨config, err⟩
  cases err with
  | some e => exact Or.inl ⟨e, NewDBConf_load_error C p env e (by rw [hl])⟩
  | none =>
    by_cases hdrv : ∃ s, config.Get "db.driver" = GoValue.string s
    · obtain ⟨drv, hdrv⟩ := hdrv
      by_cases hdsn : ∃ s, config.Get "db.dsn" = GoValue.string s
      · obtain ⟨dsn, hdsn⟩ := hdsn
        rw [NewDBConf_of_fields C p env config drv dsn hl hdrv hdsn]
        cases hv : (assembleDriver C config drv dsn).IsValid with
        | true => exact Or.inr (Or.inr ⟨_, hv, validate_of_valid C p env _ hv⟩)
        | false => exact Or.inl ⟨_, validate_of_invalid C p env _ hv⟩
      · exact Or.inr (Or.inl (NewDBConf_dsn_not_string C p env config hl
          (fun s h => hdsn ⟨s, h⟩)))
    · exact Or.inr (Or.inl (NewDBConf_driver_not_string C p env config hl
        (fun s h => hdrv ⟨s, h⟩)))

theorem newDBDriver_Name (name openStr : String) : (newDBDriver name openStr).Name = name := by
  unfold newDBDriver
  split_ifs <;> rfl

theorem newDBDriver_OpenStr (name openStr : String) :
    (newDBDriver name openStr).OpenStr = openStr := by
  unfold newDBDriver
  split_ifs <;> rfl

theorem newDBDriver_Import_indep (name openStr other : String) :
    (newDBDriver name openStr).Import = (newDBDriver name other).Import := by
  unfold newDBDriver
  split_ifs <;> rfl

theorem newDBDriver_Dialect_indep (name openStr other : String) :
    (newDBDriver name openStr).Dialect = (newDBDriver name other).Dialect := by
  unfold newDBDriver
  split_ifs <;> rfl

theorem overrideImport_of_string (config : TomlTree) (d : DBDriver) (s : String)
    (h : config.Get "migrate.import" = GoValue.string s) :
    overrideImport config d = { d with Import := s } := by
  simp [overrideImport, h, assertString_string]

theorem overrideImport_of_not_string (config : TomlTree) (d : DBDriver)
    (h : ∀ s, config.Get "migrate.import" ≠ GoValue.string s) :
    overrideImport config d = d := by
  simp [overrideImport, assertString_snd_false h]

theorem overrideDialect_of_string (C : Collaborators) (config : TomlTree) (d : DBDriver)
    (s : String) (h : config.Get "migrate.dialect" = GoValue.string s) :
    overrideDialect C config d = { d with Dialect := C.dialectByName s } := by
  simp [overrideDialect, h, assertString_string]

theorem overrideDialect_of_not_string (C : Collaborators) (config : TomlTree) (d : DBDriver)
    (h : ∀ s, config.Get "migrate.dialect" ≠ GoValue.string s) :
    overrideDialect C config d = d := by
  simp [overrideDialect, assertString_snd_false h]

theorem overrideImport_frame (config : TomlTree) (d : DBDriver) :
    (overrideImport config d).Name = d.Name ∧ (overrideImport config d).OpenStr = d.OpenStr ∧
      (overrideImport config d).Dialect = d.Dialect := by
  unfold overrideImport
  split <;> exact ⟨rfl, rfl, rfl⟩

theorem overrideDialect_frame (C : Collaborators) (config : TomlTree) (d : DBDriver) :
    (overrideDialect C config d).Name = d.Name ∧
      (overrideDialect C config d).OpenStr = d.OpenStr ∧
      (overrideDialect C config d).Import = d.Import := by
  unfold overrideDialect
  split <;> exact ⟨rfl, rfl, rfl⟩

theorem assembleDriver_Name (C : Collaborators) (config : TomlTree) (drv dsn : String) :
    (assembleDriver C config drv dsn).Name = drv := by
  unfold assembleDriver
  rw [(overrideDialect_frame C config _).1, (overrideImport_frame config _).1, newDBDriver_Name]

theorem assembleDriver_OpenStr (C : Collaborators) (config : TomlTree) (drv dsn : String) :
    (assembleDriver C config drv dsn).OpenStr = parsePostgres C drv (C.ExpandEnv dsn) := by
  unfold assembleDriver
  rw [(overrideDialect_frame C config _).2.1, (overrideImport_frame config _).2.1,
    newDBDriver_OpenStr]

theorem not_string_of_nil {v : GoValue} (h : v = GoValue.nil) (s : String) :
    v ≠ GoValue.string s := by
  rw [h]
  exact fun h' => GoValue.noConfusion h'

theorem assembleDriver_Import (C : Collaborators) (config : TomlTree) (drv dsn : String) :
    (assembleDriver C config drv dsn).Import =
      (overrideImport config (newDBDriver drv "")).Import := by
  unfold assembleDriver
  rw [(overrideDialect_frame C config _).2.2]
  unfold overrideImport
  split
  · rfl
  · exact newDBDriver_Import_indep _ _ _

theorem assembleDriver_Dialect (C : Collaborators) (config : TomlTree) (drv dsn : String) :
    (assembleDriver C config drv dsn).Dialect =
      (overrideDialect C config (newDBDriver drv "")).Dialect := by
  unfold assembleDriver overrideDialect
  split
  · rfl
  · rw [(overrideImport_frame config _).2.2]
    exact newDBDriver_Dialect_indep _ _ _

theorem IsValid_congr (d d' : DBDriver) (hi : d.Import = d'.Import)
    (hd : d.Dialect = d'.Dialect) : d.IsValid = d'.IsValid := by
  unfold DBDriver.IsValid
  rw [hi, hd]

theorem validate_fst_isSome (C : Collaborators) (p env : String) (d : DBDriver) :
    (validate C p env d).1.isSome = d.IsValid := by
  cases hv : d.IsValid with
  | false => rw [validate_of_invalid C p env d hv]; rfl
  | true => rw [validate_of_valid C p env d hv]; rfl

theorem validate_snd_isSome (C : Collaborators) (p env : String) (d : DBDriver) :
    (validate C p env d).2.isSome = !d.IsValid := by
  cases hv : d.IsValid with
  | false => rw [validate_of_invalid C p env d hv]; rfl
  | true => rw [validate_of_valid C p env d hv]; rfl

theorem assembleDriver_IsValid_parse (C : Collaborators) (config : TomlTree)
    (drv dsn : String) (parse : String → String × Option GoError) :
    (assembleDriver { C with ParseURL := parse } config drv dsn).IsValid =
      (assembleDriver C config drv dsn).IsValid := by
  apply IsValid_congr
  · rw [assembleDriver_Import, assembleDriver_Import]
  · rw [assembleDriver_Dialect, assembleDriver_Dialect]
    rfl

theorem not_string_of_assert {v : GoValue} (h : v.assertString.2 = false) (s : String) :
    v ≠ GoValue.string s := by
  intro hv
  rw [hv] at h
  cases h

theorem NewDBConf_eq_some_inv (C : Collaborators) (p env : String) (c : DBConf)
    (hc : (NewDBConf C p env).1 = some c) :
    ∃ (config : TomlTree) (drv dsn : String),
      C.LoadFile (C.Join [p, "config", env ++ ".toml"]) = (config, none) ∧
      config.Get "db.driver" = GoValue.string drv ∧
      config.Get "db.dsn" = GoValue.string dsn ∧
      (assembleDriver C config drv dsn).IsValid = true ∧
      c = { MigrationsDir := C.Join [p, "migrations"], Env := env,
            Driver := assembleDriver C config drv dsn } := by
  rcases hl : C.LoadFile (C.Join [p, "config", env ++ ".toml"]) with ⟨config, err⟩
  cases err with
  | some e =>
    rw [NewDBConf_load_error C p env e (by rw [hl])] at hc
    cases hc
  | none =>
    by_cases hdrv : ∃ s, config.Get "db.driver" = GoValue.string s
    · obtain ⟨drv, hdrv⟩ := hdrv
      by_cases hdsn : ∃ s, config.Get "db.dsn" = GoValue.string s
      · obtain ⟨dsn, hdsn⟩ := hdsn
        rw [NewDBConf_of_fields C p env config drv dsn hl hdrv hdsn] at hc
        have h := validate_eq_some C p env _ c hc
        exact ⟨config, drv, dsn, rfl, hdrv, hdsn, h.1, h.2⟩
      · rw [NewDBConf_dsn_not_string C p env config hl (fun s h => hdsn ⟨s, h⟩)] at hc
        cases hc
    · rw [NewDBConf_driver_not_string C p env config hl (fun s h => hdrv ⟨s, h⟩)] at hc
      cases hc

theorem parsePostgres_of_ne (C : Collaborators) (drv openStr : String)
    (h : drv ≠ "postgres") : parsePostgres C drv openStr = openStr := by
  simp [parsePostgres, h]

theorem NewDBConf_not_fields (C : Collaborators) (p env : String) (config : TomlTree)
    (hload : C.LoadFile (C.Join [p, "config", env ++ ".toml"]) = (config, none))
    (h : (∀ s, config.Get "db.driver" ≠ GoValue.string s) ∨
         (∀ s, config.Get "db.dsn" ≠ GoValue.string s)) :
    NewDBConf C p env = (none, none) := by
  rcases h with h | h
  · exact NewDBConf_driver_not_string C p env config hload h
  · exact NewDBConf_dsn_not_string C p env config hload h

theorem assembleDriver_congr (C C' : Collaborators) (config config' : TomlTree)
    (drv dsn : String)
    (himp : config'.Get "migrate.import" = config.Get "migrate.import")
    (hdia : config'.Get "migrate.dialect" = config.Get "migrate.dialect")
    (hexp : ∀ s, C'.ExpandEnv s = C.ExpandEnv s)
    (hparse : ∀ s, C'.ParseURL s = C.ParseURL s)
    (hname : ∀ s, C'.dialectByName s = C.dialectByName s) :
    assembleDriver C' config' drv dsn = assembleDriver C config drv dsn := by
  unfold assembleDriver overrideDialect overrideImport parsePostgres
  simp only [himp, hdia, hexp, hparse, hname]

theorem assembleDriver_of_not_string (C : Collaborators) (config : TomlTree) (drv dsn : String)
    (himp : ∀ s, config.Get "migrate.import" ≠ GoValue.string s)
    (hdia : ∀ s, config.Get "migrate.dialect" ≠ GoValue.string s) :
    assembleDriver C config drv dsn = newDBDriver drv (parsePostgres C drv (C.ExpandEnv dsn)) := by
  unfold assembleDriver
  rw [overrideDialect_of_not_string C config _ hdia, overrideImport_of_not_string config _ himp]

theorem newDBDriver_IsValid_of_recognized (drv openStr : String)
    (h : drv = "postgres" ∨ drv = "mysql" ∨ drv = "mymysql") :
    (newDBDriver drv openStr).IsValid = true := by
  rcases h with h | h | h <;> subst h <;> simp [newDBDriver, DBDriver.IsValid, len] <;> decide

/-! ## The claims -/

/-- C1: the claim asks for a non-nil error whenever the document loads and `db.driver` or
`db.dsn` is absent or not a string. On the document `docNoDsn`, which loads with a `nil`
error and has no `db.dsn`, `NewDBConf` returns a `nil` pointer together with a `nil` error:
line 45 returns the `err` of `toml.LoadFile`, which is `nil` there. -/
theorem NewDBConf_missing_dsn_returns_nil_error :
    ((sampleWorld docNoDsn).LoadFile
        ((sampleWorld docNoDsn).Join ["proj", "config", "dev" ++ ".toml"])).2 = none ∧
    ((sampleWorld docNoDsn).LoadFile
        ((sampleWorld docNoDsn).Join ["proj", "config", "dev" ++ ".toml"])).1.Get "db.dsn" =
      GoValue.nil ∧
    NewDBConf (sampleWorld docNoDsn) "proj" "dev" = (none, none) := by
  refine ⟨by decide, by decide, by decide⟩

/-- C2: whenever `NewDBConf` returns a `DBConf`, the error is `nil` and the driver of that
`DBConf` is valid: `IsValid` holds, `Import` is not empty and `Dialect` is not `nil`. -/
theorem NewDBConf_returns_valid_driver (C : Collaborators) (p env : String) (c : DBConf)
    (h : (NewDBConf C p env).1 = some c) :
    (NewDBConf C p env).2 = none ∧ c.Driver.IsValid = true ∧ 0 < len c.Driver.Import ∧
      c.Driver.Import ≠ "" ∧ c.Driver.Dialect ≠ none := by
  rcases NewDBConf_cases C p env with ⟨e, he⟩ | he | ⟨d, hv, he⟩
  · rw [he] at h; cases h
  · rw [he] at h; cases h
  · rw [he] at h ⊢
    simp only [Option.some.injEq] at h
    subst h
    have hi := (IsValid_iff d).1 hv
    exact ⟨rfl, hv, (len_pos_iff _).2 hi.1, hi.1, hi.2⟩

/-- Witness of C2: on the sample `postgres` document `NewDBConf` returns a `DBConf`, and its
driver is valid. -/
theorem NewDBConf_returns_valid_driver_witness :
    (NewDBConf (sampleWorld docPostgres) "proj" "dev").1 =
      some { MigrationsDir := "proj/migrations", Env := "dev",
             Driver := { Name := "postgres", OpenStr := "dbname=db host=h user=u",
                         Import := "github.com/lib/pq",
                         Dialect := some SqlDialect.PostgresDialect } } ∧
    ((NewDBConf (sampleWorld docPostgres) "proj" "dev").2 = none ∧
      (DBDriver.mk "postgres" "dbname=db host=h user=u" "github.com/lib/pq"
        (some SqlDialect.PostgresDialect)).IsValid = true ∧
      0 < len "github.com/lib/pq" ∧ "github.com/lib/pq" ≠ "" ∧
      some SqlDialect.PostgresDialect ≠ none) :=
  ⟨by decide, NewDBConf_returns_valid_driver (sampleWorld docPostgres) "proj" "dev"
    { MigrationsDir := "proj/migrations", Env := "dev",
      Driver := { Name := "postgres", OpenStr := "dbname=db host=h user=u",
                  Import := "github.com/lib/pq",
                  Dialect := some SqlDialect.PostgresDialect } } (by decide)⟩

/-- C3: for each of the names `postgres`, `mysql` and `mymysql` and every connection string,
`newDBDriver` returns a driver with a non-empty `Import` and a set `Dialect`, so `IsValid`
holds; `postgres` gets the Postgres dialect and the import `github.com/lib/pq`; `mysql` and
`mymysql` get the same MySQL dialect. The name and the connection string are stored as
given. -/
theorem newDBDriver_recognized (openStr : String) :
    (newDBDriver "postgres" openStr =
        { Name := "postgres", OpenStr := openStr, Import := "github.com/lib/pq",
          Dialect := some SqlDialect.PostgresDialect } ∧
      (newDBDriver "postgres" openStr).IsValid = true) ∧
    ((newDBDriver "mysql" openStr).Name = "mysql" ∧
      (newDBDriver "mysql" openStr).OpenStr = openStr ∧
      (newDBDriver "mysql" openStr).Import ≠ "" ∧
      (newDBDriver "mysql" openStr).Dialect = some SqlDialect.MySqlDialect ∧
      (newDBDriver "mysql" openStr).IsValid = true) ∧
    ((newDBDriver "mymysql" openStr).Name = "mymysql" ∧
      (newDBDriver "mymysql" openStr).OpenStr = openStr ∧
      (newDBDriver "mymysql" openStr).Import ≠ "" ∧
      (newDBDriver "mymysql" openStr).Dialect = some SqlDialect.MySqlDialect ∧
      (newDBDriver "mymysql" openStr).IsValid = true) ∧
    (∀ other : String,
      (newDBDriver "mysql" openStr).Dialect = (newDBDriver "mymysql" other).Dialect) := by
  refine ⟨⟨?_, ?_⟩, ⟨?_, ?_, ?_, ?_, ?_⟩, ⟨?_, ?_, ?_, ?_, ?_⟩, ?_⟩ <;>
    simp [newDBDriver, DBDriver.IsValid, len] <;> decide

/-- C4: for every name other than `postgres`, `mysql` and `mymysql` and every connection
string, `newDBDriver` returns the driver with that name and connection string, an empty
`Import` and a `nil` `Dialect`, and `IsValid` is false on it. -/
theorem newDBDriver_unrecognized (name openStr : String)
    (hpg : name ≠ "postgres") (hmy : name ≠ "mysql") (hmymy : name ≠ "mymysql") :
    newDBDriver name openStr =
        { Name := name, OpenStr := openStr, Import := "", Dialect := none } ∧
      (newDBDriver name openStr).Import = "" ∧ (newDBDriver name openStr).Dialect = none ∧
      (newDBDriver name openStr).IsValid = false := by
  have h : newDBDriver name openStr =
      { Name := name, OpenStr := openStr, Import := "", Dialect := none } := by
    simp [newDBDriver, hpg, hmy, hmymy]
  rw [h]
  exact ⟨rfl, rfl, rfl, by simp [DBDriver.IsValid]⟩

/-- Witness of C4: the name `oracle` is none of the three recognized names. -/
theorem newDBDriver_unrecognized_witness :
    newDBDriver "oracle" "scott/tiger@db" =
        { Name := "oracle", OpenStr := "scott/tiger@db", Import := "", Dialect := none } ∧
      (newDBDriver "oracle" "scott/tiger@db").Import = "" ∧
      (newDBDriver "oracle" "scott/tiger@db").Dialect = none ∧
      (newDBDriver "oracle" "scott/tiger@db").IsValid = false :=
  newDBDriver_unrecognized "oracle" "scott/tiger@db" (by decide) (by decide) (by decide)

/-- C5: `IsValid` is true exactly when `Import` is non-empty (its length in bytes is
positive) and `Dialect` is not `nil`; two drivers with the same `Import` and `Dialect`
get the same answer whatever their `Name` and `OpenStr`. -/
theorem DBDriver_IsValid_iff (d : DBDriver) :
    (d.IsValid = true ↔ d.Import ≠ "" ∧ d.Dialect ≠ none) ∧
    (d.IsValid = true ↔ 0 < len d.Import ∧ d.Dialect.isSome = true) ∧
    (∀ name openStr : String,
      (DBDriver.mk name openStr d.Import d.Dialect).IsValid = d.IsValid) := by
  refine ⟨IsValid_iff d, ?_, fun _ _ => rfl⟩
  unfold DBDriver.IsValid
  rw [Bool.and_eq_true, decide_eq_true_iff, gt_iff_lt]

/-- C6: if `toml.LoadFile` on the path joined from `p`, `config` and `env.toml` returns the
non-nil error `e`, then `NewDBConf` returns `nil` and exactly `e`; the result is the same
whatever tree the loader hands back and whatever the later steps (`os.ExpandEnv`,
`pq.ParseURL`, `dialectByName`, the rendering) would do. -/
theorem NewDBConf_propagates_load_error (C : Collaborators) (p env : String) (e : GoError)
    (hload : (C.LoadFile (C.Join [p, "config", env ++ ".toml"])).2 = some e) :
    NewDBConf C p env = (none, some e) ∧
    ∀ (tree : TomlTree) (expand : String → String) (parse : String → String × Option GoError)
      (byName : String → Option SqlDialect) (render : DBDriver → String),
      NewDBConf { Join := C.Join, LoadFile := fun path => (tree, (C.LoadFile path).2),
                  ExpandEnv := expand, ParseURL := parse, dialectByName := byName,
                  fmtV := render } p env = (none, some e) := by
  refine ⟨NewDBConf_load_error C p env e hload, ?_⟩
  intro tree expand parse byName render
  exact NewDBConf_load_error _ p env e hload

/-- Witness of C6: the sample collaborators have no file `proj/config/prod.toml`. -/
theorem NewDBConf_propagates_load_error_witness :
    ((sampleWorld docPostgres).LoadFile
        ((sampleWorld docPostgres).Join ["proj", "config", "prod" ++ ".toml"])).2 =
      some (GoError.foreign "open proj/config/prod.toml: no such file or directory") ∧
    NewDBConf (sampleWorld docPostgres) "proj" "prod" =
      (none, some (GoError.foreign "open proj/config/prod.toml: no such file or directory")) :=
  ⟨by decide,
   (NewDBConf_propagates_load_error (sampleWorld docPostgres) "proj" "prod"
      (GoError.foreign "open proj/config/prod.toml: no such file or directory") (by decide)).1⟩

/-- C7: when the document loads, `db.driver` is a string other than `postgres`, `mysql` and
`mymysql`, `db.dsn` is a string, and neither `migrate.import` nor `migrate.dialect` is a
string, `NewDBConf` returns `nil` and the error built by `errors.New` whose text is
`Invalid DBConf: ` followed by the rendering of the assembled driver: the driver name, the
expanded connection string, an empty `Import` and a `nil` `Dialect`. -/
theorem NewDBConf_unrecognized_driver_fails (C : Collaborators) (p env : String)
    (config : TomlTree) (drv dsn : String)
    (hload : C.LoadFile (C.Join [p, "config", env ++ ".toml"]) = (config, none))
    (hdrv : config.Get "db.driver" = GoValue.string drv)
    (hpg : drv ≠ "postgres") (hmy : drv ≠ "mysql") (hmymy : drv ≠ "mymysql")
    (hdsn : config.Get "db.dsn" = GoValue.string dsn)
    (himp : ∀ s, config.Get "migrate.import" ≠ GoValue.string s)
    (hdia : ∀ s, config.Get "migrate.dialect" ≠ GoValue.string s) :
    NewDBConf C p env =
      (none, some (GoError.errorsNew ("Invalid DBConf: " ++
        C.fmtV { Name := drv, OpenStr := C.ExpandEnv dsn, Import := "", Dialect := none }))) := by
  have hd : assembleDriver C config drv dsn =
      { Name := drv, OpenStr := C.ExpandEnv dsn, Import := "", Dialect := none } := by
    unfold assembleDriver
    rw [overrideDialect_of_not_string C config _ hdia, overrideImport_of_not_string config _ himp]
    simp [newDBDriver, parsePostgres, hpg, hmy, hmymy]
  rw [NewDBConf_of_fields C p env config drv dsn hload hdrv hdsn, hd]
  exact validate_of_invalid C p env _ (by simp [DBDriver.IsValid])

/-- Witness of C7: the document `docOracle`. -/
theorem NewDBConf_unrecognized_driver_fails_witness :
    NewDBConf (sampleWorld docOracle) "proj" "dev" =
      (none, some (GoError.errorsNew
        ("Invalid DBConf: " ++ sampleFmtV { Name := "oracle", OpenStr := "scott/tiger@db",
                                            Import := "", Dialect := none }))) ∧
    ("Invalid DBConf: " ++ sampleFmtV { Name := "oracle", OpenStr := "scott/tiger@db",
                                        Import := "", Dialect := none }) =
      "Invalid DBConf: \x7boracle scott/tiger@db  <nil>\x7d" :=
  ⟨NewDBConf_unrecognized_driver_fails (sampleWorld docOracle) "proj" "dev" docOracle
      "oracle" "scott/tiger@db" rfl (by decide) (by decide) (by decide) (by decide) (by decide)
      (not_string_of_nil (by decide)) (not_string_of_nil (by decide)),
   by decide⟩

/-- C8: when the document loads, `db.driver` and `db.dsn` are strings and `migrate.dialect`
is the string `s`, the driver `d` that `NewDBConf` validates has the name `db.driver` and
the dialect `dialectByName s`, whatever `db.driver` is: `NewDBConf` returns `d` when it is
valid and the `Invalid DBConf` error rendering `d` otherwise, so a returned `DBConf` has the
dialect `dialectByName s`. In particular, for `db.driver = postgres` and
`migrate.dialect = mysql`, with `dialectByName` sending `mysql` to the MySQL dialect, the
dialect of `d` is the MySQL dialect and not the Postgres dialect that `newDBDriver` assigns
to `postgres`. -/
theorem NewDBConf_dialect_override (C : Collaborators) (p env : String)
    (config : TomlTree) (drv dsn s : String)
    (hload : C.LoadFile (C.Join [p, "config", env ++ ".toml"]) = (config, none))
    (hdrv : config.Get "db.driver" = GoValue.string drv)
    (hdsn : config.Get "db.dsn" = GoValue.string dsn)
    (hdia : config.Get "migrate.dialect" = GoValue.string s) :
    ∃ d : DBDriver,
      d.Name = drv ∧ d.Dialect = C.dialectByName s ∧
      (d.IsValid = true → NewDBConf C p env =
        (some { MigrationsDir := C.Join [p, "migrations"], Env := env, Driver := d }, none)) ∧
      (d.IsValid = false → NewDBConf C p env =
        (none, some (GoError.errorsNew ("Invalid DBConf: " ++ C.fmtV d)))) ∧
      (∀ c : DBConf, (NewDBConf C p env).1 = some c →
        c.Driver = d ∧ c.Driver.Dialect = C.dialectByName s) ∧
      (drv = "postgres" → s = "mysql" →
        C.dialectByName "mysql" = some SqlDialect.MySqlDialect →
        d.Dialect = some SqlDialect.MySqlDialect ∧
        (newDBDriver drv d.OpenStr).Dialect = some SqlDialect.PostgresDialect ∧
        d.Dialect ≠ (newDBDriver drv d.OpenStr).Dialect) := by
  have hfields := NewDBConf_of_fields C p env config drv dsn hload hdrv hdsn
  have hD : (assembleDriver C config drv dsn).Dialect = C.dialectByName s := by
    unfold assembleDriver
    rw [overrideDialect_of_string C config _ s hdia]
  refine ⟨assembleDriver C config drv dsn, assembleDriver_Name C config drv dsn, hD, ?_, ?_, ?_, ?_⟩
  · intro hv
    rw [hfields, validate_of_valid C p env _ hv]
  · intro hv
    rw [hfields, validate_of_invalid C p env _ hv]
  · intro c hc
    rw [hfields] at hc
    have h := (validate_eq_some C p env _ c hc).2
    subst h
    exact ⟨rfl, hD⟩
  · intro h1 h2 h3
    subst h1 h2
    rw [hD, h3]
    refine ⟨rfl, by simp [newDBDriver], by simp [newDBDriver]⟩

/-- Witness of C8: the document `docDialectOverride` has `db.driver = postgres` and
`migrate.dialect = mysql`; `NewDBConf` returns a driver with the MySQL dialect. -/
theorem NewDBConf_dialect_override_witness :
    NewDBConf (sampleWorld docDialectOverride) "proj" "dev" =
      (some { MigrationsDir := "proj/migrations", Env := "dev",
              Driver := { Name := "postgres", OpenStr := "dbname=db host=h user=u",
                          Import := "github.com/lib/pq",
                          Dialect := some SqlDialect.MySqlDialect } }, none) ∧
    ∃ d : DBDriver,
      d.Name = "postgres" ∧ d.Dialect = (sampleWorld docDialectOverride).dialectByName "mysql" ∧
      (d.IsValid = true → NewDBConf (sampleWorld docDialectOverride) "proj" "dev" =
        (some { MigrationsDir := (sampleWorld docDialectOverride).Join ["proj", "migrations"],
                Env := "dev", Driver := d }, none)) ∧
      (d.IsValid = false → NewDBConf (sampleWorld docDialectOverride) "proj" "dev" =
        (none, some (GoError.errorsNew
          ("Invalid DBConf: " ++ (sampleWorld docDialectOverride).fmtV d)))) ∧
      (∀ c : DBConf, (NewDBConf (sampleWorld docDialectOverride) "proj" "dev").1 = some c →
        c.Driver = d ∧
        c.Driver.Dialect = (sampleWorld docDialectOverride).dialectByName "mysql") ∧
      ("postgres" = "postgres" → "mysql" = "mysql" →
        (sampleWorld docDialectOverride).dialectByName "mysql" = some SqlDialect.MySqlDialect →
        d.Dialect = some SqlDialect.MySqlDialect ∧
        (newDBDriver "postgres" d.OpenStr).Dialect = some SqlDialect.PostgresDialect ∧
        d.Dialect ≠ (newDBDriver "postgres" d.OpenStr).Dialect) :=
  ⟨by decide,
   NewDBConf_dialect_override (sampleWorld docDialectOverride) "proj" "dev" docDialectOverride
     "postgres" "postgres://u@h/db" "mysql" rfl (by decide) (by decide) (by decide)⟩

/-- C9: when the document loads, `db.driver` and `db.dsn` are strings and `migrate.import`
is the string `s`, the driver `d` that `NewDBConf` validates has the name `db.driver` and
the `Import` `s`, whatever `Import` `newDBDriver` assigns to that name: `NewDBConf` returns
`d` when it is valid and the `Invalid DBConf` error rendering `d` otherwise, so a returned
`DBConf` has the `Import` `s`. -/
theorem NewDBConf_import_override (C : Collaborators) (p env : String)
    (config : TomlTree) (drv dsn s : String)
    (hload : C.LoadFile (C.Join [p, "config", env ++ ".toml"]) = (config, none))
    (hdrv : config.Get "db.driver" = GoValue.string drv)
    (hdsn : config.Get "db.dsn" = GoValue.string dsn)
    (himp : config.Get "migrate.import" = GoValue.string s) :
    ∃ d : DBDriver,
      d.Name = drv ∧ d.Import = s ∧
      (d.IsValid = true → NewDBConf C p env =
        (some { MigrationsDir := C.Join [p, "migrations"], Env := env, Driver := d }, none)) ∧
      (d.IsValid = false → NewDBConf C p env =
        (none, some (GoError.errorsNew ("Invalid DBConf: " ++ C.fmtV d)))) ∧
      (∀ c : DBConf, (NewDBConf C p env).1 = some c → c.Driver = d ∧ c.Driver.Import = s) := by
  have hfields := NewDBConf_of_fields C p env config drv dsn hload hdrv hdsn
  have hI : (assembleDriver C config drv dsn).Import = s := by
    rw [assembleDriver_Import, overrideImport_of_string config _ s himp]
  refine ⟨assembleDriver C config drv dsn, assembleDriver_Name C config drv dsn, hI, ?_, ?_, ?_⟩
  · intro hv
    rw [hfields, validate_of_valid C p env _ hv]
  · intro hv
    rw [hfields, validate_of_invalid C p env _ hv]
  · intro c hc
    rw [hfields] at hc
    have h := (validate_eq_some C p env _ c hc).2
    subst h
    exact ⟨rfl, hI⟩

/-- Witness of C9: the document `docImportOverride` has `db.driver = mysql` and a
`migrate.import`; `NewDBConf` returns a driver with that `Import`. -/
theorem NewDBConf_import_override_witness :
    NewDBConf (sampleWorld docImportOverride) "proj" "dev" =
      (some { MigrationsDir := "proj/migrations", Env := "dev",
              Driver := { Name := "mysql", OpenStr := "u@tcp(h)/db",
                          Import := "example.com/fork/mysql",
                          Dialect := some SqlDialect.MySqlDialect } }, none) ∧
    ∃ d : DBDriver,
      d.Name = "mysql" ∧ d.Import = "example.com/fork/mysql" ∧
      (d.IsValid = true → NewDBConf (sampleWorld docImportOverride) "proj" "dev" =
        (some { MigrationsDir := (sampleWorld docImportOverride).Join ["proj", "migrations"],
                Env := "dev", Driver := d }, none)) ∧
      (d.IsValid = false → NewDBConf (sampleWorld docImportOverride) "proj" "dev" =
        (none, some (GoError.errorsNew
          ("Invalid DBConf: " ++ (sampleWorld docImportOverride).fmtV d)))) ∧
      (∀ c : DBConf, (NewDBConf (sampleWorld docImportOverride) "proj" "dev").1 = some c →
        c.Driver = d ∧ c.Driver.Import = "example.com/fork/mysql") :=
  ⟨by decide,
   NewDBConf_import_override (sampleWorld docImportOverride) "proj" "dev" docImportOverride
     "mysql" "u@tcp(h)/db" "example.com/fork/mysql" rfl (by decide) (by decide) (by decide)⟩

/-- C10: when the document loads, `db.driver` is `postgres` and `db.dsn` is a string, every
`DBConf` that `NewDBConf` returns has as `OpenStr` the result of `pq.ParseURL` on the
expanded `db.dsn` when that call returns a `nil` error and a non-empty string, and the
expanded `db.dsn` itself when the call returns an error or the empty string. Whether
`NewDBConf` returns a `DBConf` or an error does not depend on what `pq.ParseURL` does: with
any other normalizer in its place the same of the two happens. -/
theorem NewDBConf_postgres_normalization (C : Collaborators) (p env : String)
    (config : TomlTree) (dsn : String)
    (hload : C.LoadFile (C.Join [p, "config", env ++ ".toml"]) = (config, none))
    (hdrv : config.Get "db.driver" = GoValue.string "postgres")
    (hdsn : config.Get "db.dsn" = GoValue.string dsn) :
    (∀ c : DBConf, (NewDBConf C p env).1 = some c →
      (∀ u : String, C.ParseURL (C.ExpandEnv dsn) = (u, none) → u ≠ "" →
        c.Driver.OpenStr = u) ∧
      ((C.ParseURL (C.ExpandEnv dsn)).2 ≠ none ∨ (C.ParseURL (C.ExpandEnv dsn)).1 = "" →
        c.Driver.OpenStr = C.ExpandEnv dsn)) ∧
    (∀ parse : String → String × Option GoError,
      (NewDBConf { C with ParseURL := parse } p env).1.isSome = (NewDBConf C p env).1.isSome ∧
      (NewDBConf { C with ParseURL := parse } p env).2.isSome =
        (NewDBConf C p env).2.isSome) := by
  have hfields := NewDBConf_of_fields C p env config "postgres" dsn hload hdrv hdsn
  refine ⟨?_, ?_⟩
  · intro c hc
    rw [hfields] at hc
    have h := (validate_eq_some C p env _ c hc).2
    subst h
    simp only [assembleDriver_OpenStr]
    refine ⟨?_, ?_⟩
    · intro u hu hne
      simp [parsePostgres, hu, hne]
    · intro h
      unfold parsePostgres
      rcases hp : C.ParseURL (C.ExpandEnv dsn) with ⟨u, e⟩
      rw [hp] at h
      cases e with
      | some e => simp
      | none =>
        rcases h with h | h
        · exact absurd rfl h
        · simp only at h
          simp [h]
  · intro parse
    have hfields' : NewDBConf { C with ParseURL := parse } p env =
        validate { C with ParseURL := parse } p env
          (assembleDriver { C with ParseURL := parse } config "postgres" dsn) :=
      NewDBConf_of_fields { C with ParseURL := parse } p env config "postgres" dsn hload hdrv hdsn
    rw [hfields, hfields', validate_fst_isSome, validate_fst_isSome, validate_snd_isSome,
      validate_snd_isSome, assembleDriver_IsValid_parse]
    exact ⟨rfl, rfl⟩

/-- Witness of C10: on `docPostgres` the sample normalizer succeeds and its result is the
`OpenStr`; on `docPostgresPlain` it fails, `NewDBConf` succeeds all the same and the
`OpenStr` is the expanded `db.dsn`. -/
theorem NewDBConf_postgres_normalization_witness :
    (NewDBConf (sampleWorld docPostgres) "proj" "dev").1 =
      some { MigrationsDir := "proj/migrations", Env := "dev",
             Driver := { Name := "postgres", OpenStr := "dbname=db host=h user=u",
                         Import := "github.com/lib/pq",
                         Dialect := some SqlDialect.PostgresDialect } } ∧
    (sampleWorld docPostgres).ParseURL ((sampleWorld docPostgres).ExpandEnv "postgres://u@h/db") =
      ("dbname=db host=h user=u", none) ∧
    (sampleWorld docPostgresPlain).ParseURL
        ((sampleWorld docPostgresPlain).ExpandEnv "host=h user=u") =
      ("", some (GoError.foreign "invalid connection protocol")) ∧
    NewDBConf (sampleWorld docPostgresPlain) "proj" "dev" =
      (some { MigrationsDir := "proj/migrations", Env := "dev",
              Driver := { Name := "postgres", OpenStr := "host=h user=u",
                          Import := "github.com/lib/pq",
                          Dialect := some SqlDialect.PostgresDialect } }, none) ∧
    ((∀ c : DBConf, (NewDBConf (sampleWorld docPostgres) "proj" "dev").1 = some c →
      (∀ u : String,
        (sampleWorld docPostgres).ParseURL
            ((sampleWorld docPostgres).ExpandEnv "postgres://u@h/db") = (u, none) →
        u ≠ "" → c.Driver.OpenStr = u) ∧
      (((sampleWorld docPostgres).ParseURL
            ((sampleWorld docPostgres).ExpandEnv "postgres://u@h/db")).2 ≠ none ∨
        ((sampleWorld docPostgres).ParseURL
            ((sampleWorld docPostgres).ExpandEnv "postgres://u@h/db")).1 = "" →
        c.Driver.OpenStr = (sampleWorld docPostgres).ExpandEnv "postgres://u@h/db")) ∧
    (∀ parse : String → String × Option GoError,
      (NewDBConf { sampleWorld docPostgres with ParseURL := parse } "proj" "dev").1.isSome =
        (NewDBConf (sampleWorld docPostgres) "proj" "dev").1.isSome ∧
      (NewDBConf { sampleWorld docPostgres with ParseURL := parse } "proj" "dev").2.isSome =
        (NewDBConf (sampleWorld docPostgres) "proj" "dev").2.isSome)) :=
  ⟨by decide, by decide, by decide, by decide,
   NewDBConf_postgres_normalization (sampleWorld docPostgres) "proj" "dev" docPostgres
     "postgres://u@h/db" rfl (by decide) (by decide)⟩

/-- C11: when the document loads, `db.driver` is a string other than `postgres` and `db.dsn`
is a string, every `DBConf` that `NewDBConf` returns has as `OpenStr` exactly
`os.ExpandEnv` of the `db.dsn` value, and `pq.ParseURL` is not applied: with any other
normalizer in its place `NewDBConf` returns the same result. -/
theorem NewDBConf_non_postgres_OpenStr (C : Collaborators) (p env : String)
    (config : TomlTree) (drv dsn : String) (c : DBConf)
    (hload : C.LoadFile (C.Join [p, "config", env ++ ".toml"]) = (config, none))
    (hdrv : config.Get "db.driver" = GoValue.string drv)
    (hne : drv ≠ "postgres")
    (hdsn : config.Get "db.dsn" = GoValue.string dsn)
    (hc : (NewDBConf C p env).1 = some c) :
    c.Driver.OpenStr = C.ExpandEnv dsn ∧
    ∀ parse : String → String × Option GoError,
      NewDBConf { C with ParseURL := parse } p env = NewDBConf C p env := by
  have hfields := NewDBConf_of_fields C p env config drv dsn hload hdrv hdsn
  refine ⟨?_, ?_⟩
  · rw [hfields] at hc
    have h := (validate_eq_some C p env _ c hc).2
    subst h
    simp only [assembleDriver_OpenStr]
    exact parsePostgres_of_ne C drv _ hne
  · intro parse
    have hfields' : NewDBConf { C with ParseURL := parse } p env =
        validate { C with ParseURL := parse } p env
          (assembleDriver { C with ParseURL := parse } config drv dsn) :=
      NewDBConf_of_fields { C with ParseURL := parse } p env config drv dsn hload hdrv hdsn
    rw [hfields, hfields']
    have hd : assembleDriver { C with ParseURL := parse } config drv dsn =
        assembleDriver C config drv dsn := by
      unfold assembleDriver
      rw [parsePostgres_of_ne _ drv _ hne, parsePostgres_of_ne C drv _ hne]
      rfl
    rw [hd]
    rfl

/-- Witness of C11: for the driver `mysql`, in an environment where `HOME` is `/x`, the
reference to `HOME` in `db.dsn` is expanded and the result is the `OpenStr`. -/
theorem NewDBConf_non_postgres_OpenStr_witness :
    NewDBConf (sampleWorldHome docMysqlHome) "proj" "dev" =
      (some { MigrationsDir := "proj/migrations", Env := "dev",
              Driver := { Name := "mysql", OpenStr := "u@unix(/x/my.sock)/db",
                          Import := "github.com/go-sql-driver/mysql",
                          Dialect := some SqlDialect.MySqlDialect } }, none) ∧
    (sampleWorldHome docMysqlHome).ExpandEnv "u@unix($HOME/my.sock)/db" =
      "u@unix(/x/my.sock)/db" ∧
    ((DBDriver.mk "mysql" "u@unix(/x/my.sock)/db" "github.com/go-sql-driver/mysql"
        (some SqlDialect.MySqlDialect)).OpenStr =
      (sampleWorldHome docMysqlHome).ExpandEnv "u@unix($HOME/my.sock)/db" ∧
    ∀ parse : String → String × Option GoError,
      NewDBConf { sampleWorldHome docMysqlHome with ParseURL := parse } "proj" "dev" =
        NewDBConf (sampleWorldHome docMysqlHome) "proj" "dev") :=
  ⟨by decide, by decide,
   NewDBConf_non_postgres_OpenStr (sampleWorldHome docMysqlHome) "proj" "dev" docMysqlHome
     "mysql" "u@unix($HOME/my.sock)/db"
     { MigrationsDir := "proj/migrations", Env := "dev",
       Driver := { Name := "mysql", OpenStr := "u@unix(/x/my.sock)/db",
                   Import := "github.com/go-sql-driver/mysql",
                   Dialect := some SqlDialect.MySqlDialect } }
     rfl (by decide) (by decide) (by decide) (by decide)⟩

/-- C12: every `DBConf` that `NewDBConf` returns has `MigrationsDir` equal to
`filepath.Join(p, "migrations")`, `Env` equal to `env`, and a driver whose `Name` is the
string at `db.driver` of the loaded document and whose `OpenStr` is the connection string
computed from `db.dsn` alone (expanded, and normalized for `postgres`). The two overrides
leave `Name` and `OpenStr` of any driver as they are: the `migrate.import` override changes
`Import` only and the `migrate.dialect` override changes `Dialect` only. -/
theorem NewDBConf_success_frame (C : Collaborators) (p env : String) (c : DBConf)
    (hc : (NewDBConf C p env).1 = some c) :
    c.MigrationsDir = C.Join [p, "migrations"] ∧ c.Env = env ∧
    (C.LoadFile (C.Join [p, "config", env ++ ".toml"])).1.Get "db.driver" =
      GoValue.string c.Driver.Name ∧
    (∃ dsn : String,
      (C.LoadFile (C.Join [p, "config", env ++ ".toml"])).1.Get "db.dsn" = GoValue.string dsn ∧
      c.Driver.OpenStr = parsePostgres C c.Driver.Name (C.ExpandEnv dsn) ∧
      c.Driver.Name =
        (newDBDriver c.Driver.Name (parsePostgres C c.Driver.Name (C.ExpandEnv dsn))).Name ∧
      c.Driver.OpenStr =
        (newDBDriver c.Driver.Name (parsePostgres C c.Driver.Name (C.ExpandEnv dsn))).OpenStr) ∧
    (∀ (config : TomlTree) (d : DBDriver),
      (overrideImport config d).Name = d.Name ∧
      (overrideImport config d).OpenStr = d.OpenStr ∧
      (overrideImport config d).Dialect = d.Dialect ∧
      (overrideDialect C config d).Name = d.Name ∧
      (overrideDialect C config d).OpenStr = d.OpenStr ∧
      (overrideDialect C config d).Import = d.Import) := by
  obtain ⟨config, drv, dsn, hl, hdrv, hdsn, _, hceq⟩ := NewDBConf_eq_some_inv C p env c hc
  subst hceq
  have hN := assembleDriver_Name C config drv dsn
  have hO := assembleDriver_OpenStr C config drv dsn
  refine ⟨rfl, rfl, ?_, ⟨dsn, ?_, ?_, ?_, ?_⟩, ?_⟩
  · rw [hl]
    simp only [hN]
    exact hdrv
  · rw [hl]
    exact hdsn
  · simp only [hN]
    exact hO
  · simp only [hN, newDBDriver_Name]
  · simp only [hN, newDBDriver_OpenStr]
    exact hO
  · intro config' d
    have h1 := overrideImport_frame config' d
    have h2 := overrideDialect_frame C config' d
    exact ⟨h1.1, h1.2.1, h1.2.2, h2.1, h2.2.1, h2.2.2⟩

/-- Witness of C12: on `docDialectOverride` the override changes the dialect; the name and
the connection string are those of the `postgres` driver. -/
theorem NewDBConf_success_frame_witness :
    (NewDBConf (sampleWorld docDialectOverride) "proj" "dev").1 =
      some { MigrationsDir := "proj/migrations", Env := "dev",
             Driver := { Name := "postgres", OpenStr := "dbname=db host=h user=u",
                         Import := "github.com/lib/pq",
                         Dialect := some SqlDialect.MySqlDialect } } ∧
    (sampleWorld docDialectOverride).Join ["proj", "migrations"] = "proj/migrations" ∧
    ((sampleWorld docDialectOverride).LoadFile
      ((sampleWorld docDialectOverride).Join ["proj", "config", "dev" ++ ".toml"])).1.Get
        "db.driver" = GoValue.string "postgres" :=
  ⟨by decide, by decide,
   (NewDBConf_success_frame (sampleWorld docDialectOverride) "proj" "dev"
     { MigrationsDir := "proj/migrations", Env := "dev",
       Driver := { Name := "postgres", OpenStr := "dbname=db host=h user=u",
                   Import := "github.com/lib/pq",
                   Dialect := some SqlDialect.MySqlDialect } } (by decide)).2.2.1⟩

/-- C13: `NewDBConf` is deterministic. Take two runs with the same project root and
environment name in which `filepath.Join` gives the same two paths, `toml.LoadFile` gives
the same error and documents that agree on the four keys `db.driver`, `db.dsn`,
`migrate.import` and `migrate.dialect`, and `os.ExpandEnv`, `pq.ParseURL` and
`dialectByName` behave the same. Then both runs return the same `DBConf`, or both return
none. The errors are equal too, except that when both runs reject the same invalid driver
`d` each error text ends in that run's own rendering of `d`; when the two runs render
drivers alike the two results are equal in full. Nothing is assumed about the rendering. -/
theorem NewDBConf_deterministic (C C' : Collaborators) (p env : String)
    (hcfg : C'.Join [p, "config", env ++ ".toml"] = C.Join [p, "config", env ++ ".toml"])
    (hmig : C'.Join [p, "migrations"] = C.Join [p, "migrations"])
    (herr : (C'.LoadFile (C.Join [p, "config", env ++ ".toml"])).2 =
      (C.LoadFile (C.Join [p, "config", env ++ ".toml"])).2)
    (hdrv : (C'.LoadFile (C.Join [p, "config", env ++ ".toml"])).1.Get "db.driver" =
      (C.LoadFile (C.Join [p, "config", env ++ ".toml"])).1.Get "db.driver")
    (hdsn : (C'.LoadFile (C.Join [p, "config", env ++ ".toml"])).1.Get "db.dsn" =
      (C.LoadFile (C.Join [p, "config", env ++ ".toml"])).1.Get "db.dsn")
    (himp : (C'.LoadFile (C.Join [p, "config", env ++ ".toml"])).1.Get "migrate.import" =
      (C.LoadFile (C.Join [p, "config", env ++ ".toml"])).1.Get "migrate.import")
    (hdia : (C'.LoadFile (C.Join [p, "config", env ++ ".toml"])).1.Get "migrate.dialect" =
      (C.LoadFile (C.Join [p, "config", env ++ ".toml"])).1.Get "migrate.dialect")
    (hexp : ∀ s, C'.ExpandEnv s = C.ExpandEnv s)
    (hparse : ∀ s, C'.ParseURL s = C.ParseURL s)
    (hname : ∀ s, C'.dialectByName s = C.dialectByName s) :
    (NewDBConf C' p env).1 = (NewDBConf C p env).1 ∧
    (NewDBConf C' p env).2.isSome = (NewDBConf C p env).2.isSome ∧
    (NewDBConf C' p env = NewDBConf C p env ∨
      ∃ d : DBDriver, d.IsValid = false ∧
        NewDBConf C' p env =
          (none, some (GoError.errorsNew ("Invalid DBConf: " ++ C'.fmtV d))) ∧
        NewDBConf C p env =
          (none, some (GoError.errorsNew ("Invalid DBConf: " ++ C.fmtV d)))) ∧
    ((∀ d, C'.fmtV d = C.fmtV d) → NewDBConf C' p env = NewDBConf C p env) := by
  have key : NewDBConf C' p env = NewDBConf C p env ∨
      ∃ d : DBDriver, d.IsValid = false ∧
        NewDBConf C' p env =
          (none, some (GoError.errorsNew ("Invalid DBConf: " ++ C'.fmtV d))) ∧
        NewDBConf C p env =
          (none, some (GoError.errorsNew ("Invalid DBConf: " ++ C.fmtV d))) := by
    rcases hl : C.LoadFile (C.Join [p, "config", env ++ ".toml"]) with ⟨config, err⟩
    rcases hl' : C'.LoadFile (C.Join [p, "config", env ++ ".toml"]) with ⟨config', err'⟩
    rw [hl, hl'] at herr hdrv hdsn himp hdia
    simp only at herr hdrv hdsn himp hdia
    subst herr
    have hl'' : C'.LoadFile (C'.Join [p, "config", env ++ ".toml"]) = (config', err') := by
      rw [hcfg]
      exact hl'
    cases err' with
    | some e =>
      left
      rw [NewDBConf_load_error C p env e (by rw [hl]),
        NewDBConf_load_error C' p env e (by rw [hl''])]
    | none =>
      by_cases hs : (∃ s, config.Get "db.driver" = GoValue.string s) ∧
          (∃ s, config.Get "db.dsn" = GoValue.string s)
      · obtain ⟨⟨drv, hd⟩, ⟨dsn, hn⟩⟩ := hs
        rw [NewDBConf_of_fields C p env config drv dsn hl hd hn,
          NewDBConf_of_fields C' p env config' drv dsn hl'' (hdrv.trans hd) (hdsn.trans hn),
          assembleDriver_congr C C' config config' drv dsn himp hdia hexp hparse hname]
        cases hv : (assembleDriver C config drv dsn).IsValid with
        | true =>
          left
          rw [validate_of_valid C p env _ hv, validate_of_valid C' p env _ hv, hmig]
        | false =>
          right
          exact ⟨_, hv, validate_of_invalid C' p env _ hv, validate_of_invalid C p env _ hv⟩
      · have hs' : (∀ s, config.Get "db.driver" ≠ GoValue.string s) ∨
            (∀ s, config.Get "db.dsn" ≠ GoValue.string s) := by
          by_contra hcon
          push_neg at hcon
          exact hs hcon
        have hs'' : (∀ s, config'.Get "db.driver" ≠ GoValue.string s) ∨
            (∀ s, config'.Get "db.dsn" ≠ GoValue.string s) := by
          rw [hdrv, hdsn]
          exact hs'
        left
        rw [NewDBConf_not_fields C p env config hl hs',
          NewDBConf_not_fields C' p env config' hl'' hs'']
  refine ⟨?_, ?_, key, ?_⟩
  · rcases key with h | ⟨d, _, h', h⟩
    · rw [h]
    · rw [h, h']
  · rcases key with h | ⟨d, _, h', h⟩
    · rw [h]
    · rw [h, h']
      rfl
  · intro hfmt
    rcases key with h | ⟨d, _, h', h⟩
    · exact h
    · rw [h, h', hfmt]

/-- Witness of C13: two runs on `docEmptyImport` that differ only in the address printed for
the dialect pointer both return no `DBConf` and an error, with different error texts; two
runs whose documents differ in a key that is not read return the same `DBConf`. -/
theorem NewDBConf_deterministic_witness :
    NewDBConf (sampleWorldOtherAddress docEmptyImport) "proj" "dev" ≠
      NewDBConf (sampleWorld docEmptyImport) "proj" "dev" ∧
    ((NewDBConf (sampleWorldOtherAddress docEmptyImport) "proj" "dev").1 =
      (NewDBConf (sampleWorld docEmptyImport) "proj" "dev").1 ∧
    (NewDBConf (sampleWorldOtherAddress docEmptyImport) "proj" "dev").2.isSome =
      (NewDBConf (sampleWorld docEmptyImport) "proj" "dev").2.isSome) ∧
    docPostgresExtra.Get "db.pool" ≠ docPostgres.Get "db.pool" ∧
    (NewDBConf (sampleWorld docPostgresExtra) "proj" "dev").1 =
      (NewDBConf (sampleWorld docPostgres) "proj" "dev").1 ∧
    (NewDBConf (sampleWorld docPostgres) "proj" "dev").1.isSome = true :=
  ⟨by decide,
   ⟨(NewDBConf_deterministic (sampleWorld docEmptyImport)
       (sampleWorldOtherAddress docEmptyImport) "proj" "dev"
       (by decide) (by decide) (by decide) (by decide) (by decide) (by decide) (by decide)
       (fun _ => rfl) (fun _ => rfl) (fun _ => rfl)).1,
    (NewDBConf_deterministic (sampleWorld docEmptyImport)
       (sampleWorldOtherAddress docEmptyImport) "proj" "dev"
       (by decide) (by decide) (by decide) (by decide) (by decide) (by decide) (by decide)
       (fun _ => rfl) (fun _ => rfl) (fun _ => rfl)).2.1⟩,
   by decide,
   (NewDBConf_deterministic (sampleWorld docPostgres) (sampleWorld docPostgresExtra)
      "proj" "dev"
      (by decide) (by decide) (by decide) (by decide) (by decide) (by decide) (by decide)
      (fun _ => rfl) (fun _ => rfl) (fun _ => rfl)).1,
   by decide⟩

/-- C14: when the document loads, `db.driver` and `db.dsn` are strings and neither
`migrate.import` nor `migrate.dialect` is a string, the overrides are ignored: the driver
`d` that `NewDBConf` validates is the one `newDBDriver` builds, with the `Import` and the
`Dialect` that `newDBDriver` assigns to the name; `NewDBConf` returns `d` when it is valid
and the `Invalid DBConf` error rendering `d` otherwise. A value that is not a string causes
no failure by itself: the result is the one for the same document without the two override
keys, and for a recognized driver name `NewDBConf` returns `d`. -/
theorem NewDBConf_overrides_ignored (C : Collaborators) (p env : String)
    (config : TomlTree) (drv dsn : String)
    (hload : C.LoadFile (C.Join [p, "config", env ++ ".toml"]) = (config, none))
    (hdrv : config.Get "db.driver" = GoValue.string drv)
    (hdsn : config.Get "db.dsn" = GoValue.string dsn)
    (himp : ∀ s, config.Get "migrate.import" ≠ GoValue.string s)
    (hdia : ∀ s, config.Get "migrate.dialect" ≠ GoValue.string s) :
    ∃ d : DBDriver,
      d = newDBDriver drv (parsePostgres C drv (C.ExpandEnv dsn)) ∧
      (∀ openStr : String, d.Import = (newDBDriver drv openStr).Import ∧
        d.Dialect = (newDBDriver drv openStr).Dialect) ∧
      (d.IsValid = true → NewDBConf C p env =
        (some { MigrationsDir := C.Join [p, "migrations"], Env := env, Driver := d }, none)) ∧
      (d.IsValid = false → NewDBConf C p env =
        (none, some (GoError.errorsNew ("Invalid DBConf: " ++ C.fmtV d)))) ∧
      NewDBConf { C with LoadFile := fun path => (withoutOverrides config, (C.LoadFile path).2) }
        p env = NewDBConf C p env ∧
      (drv = "postgres" ∨ drv = "mysql" ∨ drv = "mymysql" → NewDBConf C p env =
        (some { MigrationsDir := C.Join [p, "migrations"], Env := env, Driver := d }, none)) := by
  have hfields := NewDBConf_of_fields C p env config drv dsn hload hdrv hdsn
  rw [assembleDriver_of_not_string C config drv dsn himp hdia] at hfields
  refine ⟨_, rfl, ?_, ?_, ?_, ?_, ?_⟩
  · intro openStr
    exact ⟨newDBDriver_Import_indep _ _ _, newDBDriver_Dialect_indep _ _ _⟩
  · intro hv
    rw [hfields, validate_of_valid C p env _ hv]
  · intro hv
    rw [hfields, validate_of_invalid C p env _ hv]
  · have hload' : (withoutOverrides config,
        (C.LoadFile (C.Join [p, "config", env ++ ".toml"])).2) =
        (withoutOverrides config, none) := by
      rw [hload]
    have hdrv' : (withoutOverrides config).Get "db.driver" = GoValue.string drv := by
      simp only [withoutOverrides]
      rw [if_neg (by decide)]
      exact hdrv
    have hdsn' : (withoutOverrides config).Get "db.dsn" = GoValue.string dsn := by
      simp only [withoutOverrides]
      rw [if_neg (by decide)]
      exact hdsn
    have himp' : (withoutOverrides config).Get "migrate.import" = GoValue.nil := by
      simp only [withoutOverrides]
      rw [if_pos (by decide)]
    have hdia' : (withoutOverrides config).Get "migrate.dialect" = GoValue.nil := by
      simp only [withoutOverrides]
      rw [if_pos (by decide)]
    rw [NewDBConf_of_fields
        { C with LoadFile := fun path => (withoutOverrides config, (C.LoadFile path).2) }
        p env (withoutOverrides config) drv dsn hload' hdrv' hdsn',
      assembleDriver_of_not_string _ (withoutOverrides config) drv dsn
        (not_string_of_nil himp') (not_string_of_nil hdia'),
      hfields]
    rfl
  · intro hrec
    rw [hfields, validate_of_valid C p env _ (newDBDriver_IsValid_of_recognized drv _ hrec)]

/-- Witness of C14: in `docNonStringOverrides` the override keys hold an integer and a
boolean; `NewDBConf` returns the driver that `newDBDriver` builds for `mysql`. -/
theorem NewDBConf_overrides_ignored_witness :
    NewDBConf (sampleWorld docNonStringOverrides) "proj" "dev" =
      (some { MigrationsDir := "proj/migrations", Env := "dev",
              Driver := newDBDriver "mysql" "u@tcp(h)/db" }, none) ∧
    docNonStringOverrides.Get "migrate.import" = GoValue.int64 5 ∧
    docNonStringOverrides.Get "migrate.dialect" = GoValue.bool true ∧
    ∃ d : DBDriver,
      d = newDBDriver "mysql" (parsePostgres (sampleWorld docNonStringOverrides) "mysql"
        ((sampleWorld docNonStringOverrides).ExpandEnv "u@tcp(h)/db")) ∧
      (∀ openStr : String, d.Import = (newDBDriver "mysql" openStr).Import ∧
        d.Dialect = (newDBDriver "mysql" openStr).Dialect) ∧
      (d.IsValid = true → NewDBConf (sampleWorld docNonStringOverrides) "proj" "dev" =
        (some { MigrationsDir := (sampleWorld docNonStringOverrides).Join ["proj", "migrations"],
                Env := "dev", Driver := d }, none)) ∧
      (d.IsValid = false → NewDBConf (sampleWorld docNonStringOverrides) "proj" "dev" =
        (none, some (GoError.errorsNew
          ("Invalid DBConf: " ++ (sampleWorld docNonStringOverrides).fmtV d)))) ∧
      NewDBConf { sampleWorld docNonStringOverrides with
          LoadFile := fun path => (withoutOverrides docNonStringOverrides,
            ((sampleWorld docNonStringOverrides).LoadFile path).2) } "proj" "dev" =
        NewDBConf (sampleWorld docNonStringOverrides) "proj" "dev" ∧
      ("mysql" = "postgres" ∨ "mysql" = "mysql" ∨ "mysql" = "mymysql" →
        NewDBConf (sampleWorld docNonStringOverrides) "proj" "dev" =
          (some { MigrationsDir := (sampleWorld docNonStringOverrides).Join ["proj", "migrations"],
                  Env := "dev", Driver := d }, none)) :=
  ⟨by decide, by decide, by decide,
   NewDBConf_overrides_ignored (sampleWorld docNonStringOverrides) "proj" "dev"
     docNonStringOverrides "mysql" "u@tcp(h)/db" rfl (by decide) (by decide)
     (not_string_of_assert (by decide)) (not_string_of_assert (by decide))⟩

/-- C15: overrides can rescue an unrecognized driver. When the document loads, `db.driver`
is a string other than `postgres`, `mysql` and `mymysql`, `db.dsn` is a string,
`migrate.import` is a non-empty string `i` and `migrate.dialect` is a string `s` for which
`dialectByName s` is not `nil`, `NewDBConf` returns a `nil` error and the `DBConf` whose
driver has the name `db.driver`, the expanded `db.dsn`, the `Import` `i` and the dialect
`dialectByName s`. -/
theorem NewDBConf_overrides_rescue (C : Collaborators) (p env : String)
    (config : TomlTree) (drv dsn i s : String)
    (hload : C.LoadFile (C.Join [p, "config", env ++ ".toml"]) = (config, none))
    (hdrv : config.Get "db.driver" = GoValue.string drv)
    (hpg : drv ≠ "postgres") (hmy : drv ≠ "mysql") (hmymy : drv ≠ "mymysql")
    (hdsn : config.Get "db.dsn" = GoValue.string dsn)
    (himp : config.Get "migrate.import" = GoValue.string i) (hi : i ≠ "")
    (hdia : config.Get "migrate.dialect" = GoValue.string s)
    (hs : C.dialectByName s ≠ none) :
    (newDBDriver drv (C.ExpandEnv dsn)).IsValid = false ∧
    NewDBConf C p env =
      (some { MigrationsDir := C.Join [p, "migrations"], Env := env,
              Driver := { Name := drv, OpenStr := C.ExpandEnv dsn, Import := i,
                          Dialect := C.dialectByName s } }, none) := by
  have hd : assembleDriver C config drv dsn =
      { Name := drv, OpenStr := C.ExpandEnv dsn, Import := i,
        Dialect := C.dialectByName s } := by
    unfold assembleDriver
    rw [overrideDialect_of_string C config _ s hdia, overrideImport_of_string config _ i himp,
      parsePostgres_of_ne C drv _ hpg]
    simp [newDBDriver, hpg, hmy, hmymy]
  refine ⟨by simp [newDBDriver, hpg, hmy, hmymy, DBDriver.IsValid], ?_⟩
  rw [NewDBConf_of_fields C p env config drv dsn hload hdrv hdsn, hd]
  exact validate_of_valid C p env _ ((IsValid_iff _).2 ⟨hi, hs⟩)

/-- Witness of C15: the document `docRescue` names the driver `oracle` and overrides both
fields. -/
theorem NewDBConf_overrides_rescue_witness :
    NewDBConf (sampleWorld docRescue) "proj" "dev" =
      (some { MigrationsDir := "proj/migrations", Env := "dev",
              Driver := { Name := "oracle", OpenStr := "scott/tiger@db",
                          Import := "example.com/oracle",
                          Dialect := some SqlDialect.PostgresDialect } }, none) ∧
    (newDBDriver "oracle" ((sampleWorld docRescue).ExpandEnv "scott/tiger@db")).IsValid = false ∧
    NewDBConf (sampleWorld docRescue) "proj" "dev" =
      (some { MigrationsDir := (sampleWorld docRescue).Join ["proj", "migrations"], Env := "dev",
              Driver := { Name := "oracle",
                          OpenStr := (sampleWorld docRescue).ExpandEnv "scott/tiger@db",
                          Import := "example.com/oracle",
                          Dialect := (sampleWorld docRescue).dialectByName "postgres" } }, none) :=
  ⟨by decide,
   NewDBConf_overrides_rescue (sampleWorld docRescue) "proj" "dev" docRescue
     "oracle" "scott/tiger@db" "example.com/oracle" "postgres" rfl (by decide) (by decide)
     (by decide) (by decide) (by decide) (by decide) (by decide) (by decide) (by decide)⟩

/-- C16: overrides are applied before validation and can invalidate a recognized driver.
When the document loads, `db.driver` is `postgres`, `mysql` or `mymysql` and `db.dsn` is a
string, then if `migrate.import` is the empty string, or `migrate.dialect` is a string `s`
for which `dialectByName s` is `nil`, `NewDBConf` returns no `DBConf` and the error built by
`errors.New` whose text is `Invalid DBConf: ` followed by the rendering of the assembled
driver `d`; `d` has the name `db.driver` and is invalid, although the driver that
`newDBDriver` builds for that name is valid. -/
theorem NewDBConf_overrides_invalidate (C : Collaborators) (p env : String)
    (config : TomlTree) (drv dsn : String)
    (hload : C.LoadFile (C.Join [p, "config", env ++ ".toml"]) = (config, none))
    (hdrv : config.Get "db.driver" = GoValue.string drv)
    (hrec : drv = "postgres" ∨ drv = "mysql" ∨ drv = "mymysql")
    (hdsn : config.Get "db.dsn" = GoValue.string dsn)
    (hover : config.Get "migrate.import" = GoValue.string "" ∨
      ∃ s : String, config.Get "migrate.dialect" = GoValue.string s ∧
        C.dialectByName s = none) :
    ∃ d : DBDriver,
      d.Name = drv ∧ d.IsValid = false ∧
      (d.Import = "" ∨ d.Dialect = none) ∧
      (newDBDriver drv d.OpenStr).IsValid = true ∧
      NewDBConf C p env = (none, some (GoError.errorsNew ("Invalid DBConf: " ++ C.fmtV d))) := by
  have hinv : (assembleDriver C config drv dsn).Import = "" ∨
      (assembleDriver C config drv dsn).Dialect = none := by
    rcases hover with himp | ⟨s, hdia, hs⟩
    · left
      rw [assembleDriver_Import, overrideImport_of_string config _ "" himp]
    · right
      rw [assembleDriver_Dialect, overrideDialect_of_string C config _ s hdia]
      exact hs
  have hv : (assembleDriver C config drv dsn).IsValid = false := by
    cases h : (assembleDriver C config drv dsn).IsValid with
    | false => rfl
    | true =>
      have h' := (IsValid_iff _).1 h
      rcases hinv with h1 | h1
      · exact absurd h1 h'.1
      · exact absurd h1 h'.2
  refine ⟨assembleDriver C config drv dsn, assembleDriver_Name C config drv dsn, hv, hinv,
    newDBDriver_IsValid_of_recognized drv _ hrec, ?_⟩
  rw [NewDBConf_of_fields C p env config drv dsn hload hdrv hdsn]
  exact validate_of_invalid C p env _ hv

/-- Witness of C16: in `docEmptyImport` the driver is `postgres` and `migrate.import` is the
empty string; in `docUnknownDialect` the driver is `mysql` and `migrate.dialect` is a name
without dialect. Both fail with the `Invalid DBConf` error. -/
theorem NewDBConf_overrides_invalidate_witness :
    NewDBConf (sampleWorld docEmptyImport) "proj" "dev" =
      (none, some (GoError.errorsNew
        "Invalid DBConf: \x7bpostgres dbname=db host=h user=u  0xc000010000\x7d")) ∧
    NewDBConf (sampleWorld docUnknownDialect) "proj" "dev" =
      (none, some (GoError.errorsNew
        "Invalid DBConf: \x7bmysql u@tcp(h)/db github.com/go-sql-driver/mysql <nil>\x7d")) ∧
    (∃ d : DBDriver,
      d.Name = "postgres" ∧ d.IsValid = false ∧
      (d.Import = "" ∨ d.Dialect = none) ∧
      (newDBDriver "postgres" d.OpenStr).IsValid = true ∧
      NewDBConf (sampleWorld docEmptyImport) "proj" "dev" =
        (none, some (GoError.errorsNew
          ("Invalid DBConf: " ++ (sampleWorld docEmptyImport).fmtV d)))) :=
  ⟨by decide, by decide,
   NewDBConf_overrides_invalidate (sampleWorld docEmptyImport) "proj" "dev" docEmptyImport
     "postgres" "postgres://u@h/db" rfl (by decide) (Or.inl rfl) (by decide)
     (Or.inl (by decide))⟩

end Goose
